import Mathlib

/-!
# verilated-rs: the C shim over the Verilator runtime

A shallow embedding of `verilated_shim.cpp` and `verilatedvcdc_shim.cpp`.
Every shim function is a forwarding call into the wrapped engine (the classes
`Verilated` and `VerilatedVcdC` of `verilated.h` / `verilated_vcd_c.h`), which is
not part of the repository.  The engine is therefore a small explicit state model
written from the specification, and the shim functions are translated from the
source on top of it, as functions over an explicit `World`.

C `int` and `size_t` arguments are mathematical integers / naturals: no shim
function does arithmetic on them, so no wrap-around can occur in the shim.
Pointers (handles, callbacks, user data) are addresses in `Nat`.
-/

namespace VerilatedShim

/-! ## Data model -/

/-- A C string, as the list of its characters. -/
abbrev CString := List Char

/-- Modelled from the spec: the process-wide configuration singleton of the wrapped
engine (class `Verilated` of `verilated.h`, missing from the repository), with the
fields of section 3 (randReset, debug, calcUnusedSigs, gotFinish, assertOn,
fatalOnVpiError, traceEverOn, recorded argv) and the two callback lists of the
list-based callback interface of section 6.  An argument-less accessor such as
`Verilated::debug()` is the projection of its field. -/
structure GlobalConfig where
  randReset : Int
  debug : Int
  calcUnusedSigs : Bool
  gotFinish : Bool
  traceEverOn : Bool
  assertOn : Bool
  fatalOnVpiError : Bool
  args : List CString
  flushCbs : List (Nat × Nat)
  exitCbs : List (Nat × Nat)
deriving DecidableEq, Repr

/-- Modelled from the spec: the rollover size threshold of the waveform writer.  The
unit of the number is that of the engine method that received it; section 9 leaves the
unit of the newer method open and the engine is missing from the repository, so the
threshold is kept as the number given together with the method it was given to, and
no number of bytes is assigned to it. -/
inductive Rollover where
  | unset
  | viaRolloverMB (n : Nat)
  | viaRolloverSize (n : Nat)
deriving DecidableEq, Repr

/-- Modelled from the spec: the waveform writer object of the wrapped engine (class
`VerilatedVcdC` of `verilated_vcd_c.h`, missing from the repository), with the
attributes of section 3: open/closed state, current output file target (name and
numeric suffix), rollover size threshold, time unit and resolution strings, and the
records emitted by `dump` together with how many of them have been forced out to the
file. -/
structure VerilatedVcdC where
  isOpen : Bool
  filename : CString
  suffix : Nat
  rollover : Rollover
  timeUnit : CString
  timeResolution : CString
  records : List Nat
  flushed : Nat
deriving DecidableEq, Repr

/-- The explicit program state: the global singleton, the heap of live dump handles
(by address; `none` is an address holding no live handle) and the next address the
allocator hands out. -/
structure World where
  global : GlobalConfig
  handles : Nat → Option VerilatedVcdC
  brk : Nat

/-- Write the object `o` back at address `p`. -/
def World.store (w : World) (p : Nat) (o : Option VerilatedVcdC) : World :=
  { w with handles := fun q => if q = p then o else w.handles q }

/-! ## The wrapped engine: global configuration -/

namespace Verilated

/-- Modelled from the spec: `Verilated::randReset(int)`, missing from the repository;
stores the value it is given. -/
def setRandReset (val : Int) (g : GlobalConfig) : GlobalConfig := { g with randReset := val }

/-- Modelled from the spec: `Verilated::debug(int)`, missing from the repository;
stores the level it is given. -/
def setDebug (level : Int) (g : GlobalConfig) : GlobalConfig := { g with debug := level }

/-- Modelled from the spec: `Verilated::calcUnusedSigs(bool)`, missing from the
repository; stores the boolean it is given. -/
def setCalcUnusedSigs (flag : Bool) (g : GlobalConfig) : GlobalConfig :=
  { g with calcUnusedSigs := flag }

/-- Modelled from the spec: `Verilated::gotFinish(bool)`, missing from the repository;
stores the boolean it is given. -/
def setGotFinish (flag : Bool) (g : GlobalConfig) : GlobalConfig := { g with gotFinish := flag }

/-- Modelled from the spec: `Verilated::traceEverOn(bool)`, missing from the
repository; stores the boolean it is given in the traceEverOn field of section 3. -/
def setTraceEverOn (flag : Bool) (g : GlobalConfig) : GlobalConfig :=
  { g with traceEverOn := flag }

/-- Modelled from the spec: `Verilated::assertOn(bool)`, missing from the repository;
stores the boolean it is given. -/
def setAssertOn (flag : Bool) (g : GlobalConfig) : GlobalConfig := { g with assertOn := flag }

/-- Modelled from the spec: `Verilated::fatalOnVpiError(bool)`, missing from the
repository; stores the boolean it is given. -/
def setFatalOnVpiError (flag : Bool) (g : GlobalConfig) : GlobalConfig :=
  { g with fatalOnVpiError := flag }

end Verilated

/-! ## `verilated_shim.cpp`: scalar configuration -/

/-- `verilated_set_rand_reset`: `Verilated::randReset(val);` -/
def verilated_set_rand_reset (val : Int) (w : World) : World :=
  { w with global := Verilated.setRandReset val w.global }

/-- `verilated_rand_reset`: `return Verilated::randReset();` -/
def verilated_rand_reset (w : World) : Int × World :=
  (w.global.randReset, w)

/-- `verilated_set_debug`: `return Verilated::debug(level);` -/
def verilated_set_debug (level : Int) (w : World) : World :=
  { w with global := Verilated.setDebug level w.global }

/-- `verilated_debug`: `return Verilated::debug();` -/
def verilated_debug (w : World) : Int × World :=
  (w.global.debug, w)

/-- `verilated_set_calc_unused_sigs`: `Verilated::calcUnusedSigs(flag != 0);` -/
def verilated_set_calc_unused_sigs (flag : Int) (w : World) : World :=
  { w with global := Verilated.setCalcUnusedSigs (flag != 0) w.global }

/-- `verilated_calc_unused_sigs`: `return Verilated::calcUnusedSigs() ? 1 : 0;` -/
def verilated_calc_unused_sigs (w : World) : Int × World :=
  (if w.global.calcUnusedSigs then 1 else 0, w)

/-- `verilated_set_got_finish`: `Verilated::gotFinish(flag != 0);` -/
def verilated_set_got_finish (flag : Int) (w : World) : World :=
  { w with global := Verilated.setGotFinish (flag != 0) w.global }

/-- `verilated_got_finish`: `return Verilated::gotFinish() ? 1 : 0;` -/
def verilated_got_finish (w : World) : Int × World :=
  (if w.global.gotFinish then 1 else 0, w)

/-- `verilated_trace_ever_on`: `Verilated::traceEverOn(flag != 0);` -/
def verilated_trace_ever_on (flag : Int) (w : World) : World :=
  { w with global := Verilated.setTraceEverOn (flag != 0) w.global }

/-- `verilated_set_assert_on`: `Verilated::assertOn(flag != 0);` -/
def verilated_set_assert_on (flag : Int) (w : World) : World :=
  { w with global := Verilated.setAssertOn (flag != 0) w.global }

/-- `verilated_assert_on`: `return Verilated::assertOn() ? 1 : 0;` -/
def verilated_assert_on (w : World) : Int × World :=
  (if w.global.assertOn then 1 else 0, w)

/-- `verilated_set_fatal_on_vpi_error`: `Verilated::fatalOnVpiError(flag != 0);` -/
def verilated_set_fatal_on_vpi_error (flag : Int) (w : World) : World :=
  { w with global := Verilated.setFatalOnVpiError (flag != 0) w.global }

/-- `verilated_fatal_on_vpi_error`: `return Verilated::fatalOnVpiError() ? 1 : 0;` -/
def verilated_fatal_on_vpi_error (w : World) : Int × World :=
  (if w.global.fatalOnVpiError then 1 else 0, w)

/-! ## `verilated_shim.cpp`: the version-gated callback interface -/

/-- The condition of the `#if` at line 90 of `verilated_shim.cpp`:
`(VERILATOR_VERSION_MAJOR >= 5) || (VERILATOR_VERSION_MAJOR == 4 && VERILATOR_VERSION_MINOR >= 38)`. -/
def callbackGate (major minor : Nat) : Bool :=
  decide (major ≥ 5) || (major == 4 && decide (minor ≥ 38))

/-- The callback functions `verilated_shim.cpp` defines in either branch of the `#if`. -/
inductive CallbackFn where
  | verilated_add_flush_cb
  | verilated_remove_flush_cb
  | verilator_run_flush_callbacks
  | verilated_add_exit_cb
  | verilated_remove_exit_cb
  | verilator_run_exit_callbacks
  | verilated_flush_cb
  | verilated_flush_call
deriving DecidableEq, Repr

/-- The functions between `#if` and `#else`: the list-based shape. -/
def listShape : List CallbackFn :=
  [.verilated_add_flush_cb, .verilated_remove_flush_cb, .verilator_run_flush_callbacks,
   .verilated_add_exit_cb, .verilated_remove_exit_cb, .verilator_run_exit_callbacks]

/-- The functions between `#else` and `#endif`: the single-slot shape. -/
def singleSlotShape : List CallbackFn :=
  [.verilated_flush_cb, .verilated_flush_call]

/-- The callback functions a build against engine version `major.minor` compiles in:
the preprocessor keeps the `#if` branch when the condition holds and the `#else`
branch otherwise. -/
def compiledCallbacks (major minor : Nat) : List CallbackFn :=
  if callbackGate major minor then listShape else singleSlotShape

/-- A build exposes a shape when every function of the shape is compiled in. -/
def exposes (major minor : Nat) (shape : List CallbackFn) : Prop :=
  ∀ f ∈ shape, f ∈ compiledCallbacks major minor

namespace Verilated

/-- Modelled from the spec: `Verilated::addFlushCb(cb, datap)`, missing from the
repository; registers the pair it is given at the end of the flush-callback list. -/
def addFlushCb (cb datap : Nat) (g : GlobalConfig) : GlobalConfig :=
  { g with flushCbs := g.flushCbs ++ [(cb, datap)] }

/-- Modelled from the spec: `Verilated::removeFlushCb(cb, datap)`, missing from the
repository; removes the registrations that match the exact pointer pair. -/
def removeFlushCb (cb datap : Nat) (g : GlobalConfig) : GlobalConfig :=
  { g with flushCbs := g.flushCbs.filter (fun p => decide (p ≠ (cb, datap))) }

/-- Modelled from the spec: `Verilated::addExitCb(cb, datap)`, missing from the
repository; registers the pair it is given at the end of the exit-callback list. -/
def addExitCb (cb datap : Nat) (g : GlobalConfig) : GlobalConfig :=
  { g with exitCbs := g.exitCbs ++ [(cb, datap)] }

/-- Modelled from the spec: `Verilated::removeExitCb(cb, datap)`, missing from the
repository; removes the registrations that match the exact pointer pair. -/
def removeExitCb (cb datap : Nat) (g : GlobalConfig) : GlobalConfig :=
  { g with exitCbs := g.exitCbs.filter (fun p => decide (p ≠ (cb, datap))) }

/-- Modelled from the spec: `Verilated::commandArgs(argc, argv)`, missing from the
repository; records the first `argc` entries of `argv`. -/
def commandArgs (argc : Int) (argv : List CString) (g : GlobalConfig) : GlobalConfig :=
  { g with args := argv.take argc.toNat }

/-- Modelled from the spec: `Verilated::commandArgsPlusMatch(prefixp)`, missing from
the repository; the first recorded argument that starts with the given string, and
no argument (`none`) when no recorded argument does. -/
def commandArgsPlusMatch (pfx : CString) (g : GlobalConfig) : Option CString :=
  g.args.find? (fun a => decide (pfx <+: a))

end Verilated

/-- `verilated_add_flush_cb`: `Verilated::addFlushCb(cb, datap);` -/
def verilated_add_flush_cb (cb datap : Nat) (w : World) : World :=
  { w with global := Verilated.addFlushCb cb datap w.global }

/-- `verilated_remove_flush_cb`: `Verilated::removeFlushCb(cb, datap);` -/
def verilated_remove_flush_cb (cb datap : Nat) (w : World) : World :=
  { w with global := Verilated.removeFlushCb cb datap w.global }

/-- `verilated_add_exit_cb`: `Verilated::addExitCb(cb, datap);` -/
def verilated_add_exit_cb (cb datap : Nat) (w : World) : World :=
  { w with global := Verilated.addExitCb cb datap w.global }

/-- `verilated_remove_exit_cb`: `Verilated::removeExitCb(cb, datap);` -/
def verilated_remove_exit_cb (cb datap : Nat) (w : World) : World :=
  { w with global := Verilated.removeExitCb cb datap w.global }

/-! ## `verilated_shim.cpp`: command-line arguments -/

/-- `verilated_command_args`: `Verilated::commandArgs(argc, argv);` -/
def verilated_command_args (argc : Int) (argv : List CString) (w : World) : World :=
  { w with global := Verilated.commandArgs argc argv w.global }

/-- `verilated_command_args_plus_match`: `return Verilated::commandArgsPlusMatch(prefixp);` -/
def verilated_command_args_plus_match (pfx : CString) (w : World) : Option CString × World :=
  (Verilated.commandArgsPlusMatch pfx w.global, w)

/-! ## The surface of `verilated_shim.cpp` over the scalar fields -/

/-- The scalar fields of the global configuration state, as listed in section 3. -/
inductive Field where
  | randReset | debug | calcUnusedSigs | gotFinish | assertOn | fatalOnVpiError | traceEverOn
deriving DecidableEq, Repr

/-- Encode a boolean as the shim does: `b ? 1 : 0`. -/
def boolInt (b : Bool) : Int := if b then 1 else 0

/-- The value of a scalar field, as an integer (booleans as 1/0). -/
def Field.read : Field → GlobalConfig → Int
  | .randReset, g => g.randReset
  | .debug, g => g.debug
  | .calcUnusedSigs, g => boolInt g.calcUnusedSigs
  | .gotFinish, g => boolInt g.gotFinish
  | .assertOn, g => boolInt g.assertOn
  | .fatalOnVpiError, g => boolInt g.fatalOnVpiError
  | .traceEverOn, g => boolInt g.traceEverOn

/-- What a setter of the field stores for the integer it is given: the integer itself
for the two integer fields, its truth value for the boolean ones. -/
def Field.norm : Field → Int → Int
  | .randReset, v => v
  | .debug, v => v
  | _, v => if v ≠ 0 then 1 else 0

/-- Every function of `verilated_shim.cpp` that takes no argument and returns `int`. -/
def intGetters : List (World → Int × World) :=
  [verilated_rand_reset, verilated_debug, verilated_calc_unused_sigs, verilated_got_finish,
   verilated_assert_on, verilated_fatal_on_vpi_error]

/-- Every function of `verilated_shim.cpp` that takes one `int` and returns `void`. -/
def intSetters : List (Int → World → World) :=
  [verilated_set_rand_reset, verilated_set_debug, verilated_set_calc_unused_sigs,
   verilated_set_got_finish, verilated_trace_ever_on, verilated_set_assert_on,
   verilated_set_fatal_on_vpi_error]

/-- The surface has a set function for field `f`: an `int`-taking function after which
the field holds the value given. -/
def hasSetter (f : Field) : Prop :=
  ∃ set ∈ intSetters, ∀ (v : Int) (w : World), f.read (set v w).global = f.norm v

/-- The surface has a get function for field `f`: an `int`-returning function whose
result is the value of the field. -/
def hasGetter (f : Field) : Prop :=
  ∃ get ∈ intGetters, ∀ w : World, (get w).1 = f.read w.global

/-! ## The wrapped engine: the waveform writer -/

namespace VerilatedVcdC

/-- Modelled from the spec: the object `new VerilatedVcdC()` constructs (the constructor
is missing from the repository): closed, no file target, no rollover threshold, the
default time unit `ns` the source comments name, nothing dumped. -/
def fresh : VerilatedVcdC :=
  { isOpen := false, filename := [], suffix := 0, rollover := .unset,
    timeUnit := "ns".toList, timeResolution := "ns".toList, records := [], flushed := 0 }

/-- Modelled from the spec: `VerilatedVcdC::open(filename)`, missing from the
repository; starts a new dump on the named file, as if the object had been recreated.
`ok` is the outcome of opening the file: the writer is open afterwards exactly when the
open succeeded. -/
def openFile (ok : Bool) (filename : CString) (o : VerilatedVcdC) : VerilatedVcdC :=
  { o with isOpen := ok, filename := filename, suffix := 0, records := [], flushed := 0 }

/-- Modelled from the spec: `VerilatedVcdC::openNext(incFilename)`, missing from the
repository; rotates to a new file, incrementing the numeric suffix when asked to.
`ok` is the outcome of opening the new file. -/
def openNext (ok : Bool) (incFilename : Bool) (o : VerilatedVcdC) : VerilatedVcdC :=
  { o with isOpen := ok, suffix := if incFilename then o.suffix + 1 else o.suffix,
           flushed := o.records.length }

/-- Modelled from the spec: `VerilatedVcdC::rolloverMB(n)` of the engines before 4.226,
missing from the repository; the threshold becomes the number given, in the unit of
this method. -/
def rolloverMB (n : Nat) (o : VerilatedVcdC) : VerilatedVcdC :=
  { o with rollover := .viaRolloverMB n }

/-- Modelled from the spec: `VerilatedVcdC::rolloverSize(n)` of the engines from 4.226
on, missing from the repository; the threshold becomes the number given, in the unit
of this method. -/
def rolloverSize (n : Nat) (o : VerilatedVcdC) : VerilatedVcdC :=
  { o with rollover := .viaRolloverSize n }

/-- Modelled from the spec: `VerilatedVcdC::close()`, missing from the repository;
finalizes the output and leaves the writer closed. -/
def close (o : VerilatedVcdC) : VerilatedVcdC :=
  { o with isOpen := false, flushed := o.records.length }

/-- Modelled from the spec: `VerilatedVcdC::flush()`, missing from the repository;
forces the buffered records out. -/
def flush (o : VerilatedVcdC) : VerilatedVcdC :=
  { o with flushed := o.records.length }

/-- Modelled from the spec: `VerilatedVcdC::dump(timeui)`, missing from the repository;
emits one record stamped with the given time, without validating the time. -/
def dump (timeui : Nat) (o : VerilatedVcdC) : VerilatedVcdC :=
  { o with records := o.records ++ [timeui] }

/-- Modelled from the spec: `VerilatedVcdC::set_time_unit(unit)`, missing from the
repository; stores the token. -/
def set_time_unit (unit : CString) (o : VerilatedVcdC) : VerilatedVcdC :=
  { o with timeUnit := unit }

/-- Modelled from the spec: `VerilatedVcdC::set_time_resolution(unit)`, missing from
the repository; stores the token. -/
def set_time_resolution (unit : CString) (o : VerilatedVcdC) : VerilatedVcdC :=
  { o with timeResolution := unit }

end VerilatedVcdC

/-! ## `verilatedvcdc_shim.cpp`

A handle is the address of a live object.  `vcd->m(...)` on an address that holds no
live object is undefined behaviour; the embedding returns `none` there. -/

/-- The call `vcd->m(...)` of a state-changing method `m`: dereference, run the
method, write the object back. -/
def World.call (w : World) (vcd : Nat) (m : VerilatedVcdC → VerilatedVcdC) : Option World :=
  match w.handles vcd with
  | none => none
  | some o => some (w.store vcd (some (m o)))

/-- `verilatedvcdc_new`: `return new VerilatedVcdC();` -/
def verilatedvcdc_new (w : World) : Nat × World :=
  (w.brk, { (w.store w.brk (some VerilatedVcdC.fresh)) with brk := w.brk + 1 })

/-- `verilatedvcdc_delete`: `delete vcd;` -/
def verilatedvcdc_delete (vcd : Nat) (w : World) : Option World :=
  match w.handles vcd with
  | none => none
  | some _ => some (w.store vcd none)

/-- `verilatedvcdc_is_open`: `return vcd->isOpen() ? 1 : 0;` -/
def verilatedvcdc_is_open (vcd : Nat) (w : World) : Option (Int × World) :=
  match w.handles vcd with
  | none => none
  | some o => some (if o.isOpen then 1 else 0, w)

/-- `verilatedvcdc_open`: `vcd->open(filename);`, with the outcome `ok` of opening the
file as an explicit input. -/
def verilatedvcdc_open (ok : Bool) (vcd : Nat) (filename : CString) (w : World) : Option World :=
  w.call vcd (VerilatedVcdC.openFile ok filename)

/-- `verilatedvcdc_open_next`: `vcd->openNext(inc_filename ? true : false);`, with the
outcome `ok` of opening the file as an explicit input. -/
def verilatedvcdc_open_next (ok : Bool) (vcd : Nat) (inc_filename : Int) (w : World) :
    Option World :=
  w.call vcd (VerilatedVcdC.openNext ok (if inc_filename != 0 then true else false))

/-- The condition of the `#if` in `verilatedvcdc_rollover_mb`:
`(VERILATOR_VERSION_MAJOR >= 5) || (VERILATOR_VERSION_MAJOR == 4 && VERILATOR_VERSION_MINOR >= 226)`. -/
def rolloverGate (major minor : Nat) : Bool :=
  decide (major ≥ 5) || (major == 4 && decide (minor ≥ 226))

/-- `verilatedvcdc_rollover_mb`, documented in the source as "Set size in megabytes
after which new file should be created": `vcd->rolloverSize(rolloverSize);` when the
`#if` condition holds, `vcd->rolloverMB(rolloverSize);` otherwise. -/
def verilatedvcdc_rollover_mb (major minor : Nat) (vcd : Nat) (rolloverSize : Nat) (w : World) :
    Option World :=
  if rolloverGate major minor then
    w.call vcd (VerilatedVcdC.rolloverSize rolloverSize)
  else
    w.call vcd (VerilatedVcdC.rolloverMB rolloverSize)

/-- `verilatedvcdc_close`: `vcd->close();` -/
def verilatedvcdc_close (vcd : Nat) (w : World) : Option World :=
  w.call vcd VerilatedVcdC.close

/-- `verilatedvcdc_flush`: `vcd->flush();` -/
def verilatedvcdc_flush (vcd : Nat) (w : World) : Option World :=
  w.call vcd VerilatedVcdC.flush

/-- `verilatedvcdc_dump`: `vcd->dump(timeui);` -/
def verilatedvcdc_dump (vcd : Nat) (timeui : Nat) (w : World) : Option World :=
  w.call vcd (VerilatedVcdC.dump timeui)

/-- `verilatedvcdc_set_time_unit`: `vcd->set_time_unit(unit);` -/
def verilatedvcdc_set_time_unit (vcd : Nat) (unit : CString) (w : World) : Option World :=
  w.call vcd (VerilatedVcdC.set_time_unit unit)

/-- `verilatedvcdc_set_time_resolution`: `vcd->set_time_resolution(unit);` -/
def verilatedvcdc_set_time_resolution (vcd : Nat) (unit : CString) (w : World) : Option World :=
  w.call vcd (VerilatedVcdC.set_time_resolution unit)

/-! ## Sequences of calls on a handle -/

/-- A call on a dump handle that is neither `open`, `open_next` nor `close`. -/
inductive DumpCall where
  | dump (timeui : Nat)
  | flush
  | rollover_mb (rolloverSize : Nat)
  | set_time_unit (unit : CString)
  | set_time_resolution (unit : CString)
deriving DecidableEq, Repr

/-- Run one such call on the handle `vcd`, in a build against engine `major.minor`. -/
def DumpCall.run (major minor : Nat) (vcd : Nat) : DumpCall → World → Option World
  | .dump t, w => verilatedvcdc_dump vcd t w
  | .flush, w => verilatedvcdc_flush vcd w
  | .rollover_mb n, w => verilatedvcdc_rollover_mb major minor vcd n w
  | .set_time_unit u, w => verilatedvcdc_set_time_unit vcd u w
  | .set_time_resolution u, w => verilatedvcdc_set_time_resolution vcd u w

/-- Run a sequence of such calls, one after the other. -/
def runCalls (major minor : Nat) (vcd : Nat) : List DumpCall → World → Option World
  | [], w => some w
  | c :: cs, w =>
    match c.run major minor vcd w with
    | none => none
    | some w1 => runCalls major minor vcd cs w1

/-! ## Frame conditions -/

/-- The fields of the global configuration state. -/
inductive GField where
  | randReset | debug | calcUnusedSigs | gotFinish | traceEverOn | assertOn | fatalOnVpiError
  | args | flushCbs | exitCbs
deriving DecidableEq, Repr

/-- The two configurations agree on every field other than `f`. -/
def agreeOff (f : GField) (g g1 : GlobalConfig) : Prop :=
  (f ≠ .randReset → g1.randReset = g.randReset) ∧
  (f ≠ .debug → g1.debug = g.debug) ∧
  (f ≠ .calcUnusedSigs → g1.calcUnusedSigs = g.calcUnusedSigs) ∧
  (f ≠ .gotFinish → g1.gotFinish = g.gotFinish) ∧
  (f ≠ .traceEverOn → g1.traceEverOn = g.traceEverOn) ∧
  (f ≠ .assertOn → g1.assertOn = g.assertOn) ∧
  (f ≠ .fatalOnVpiError → g1.fatalOnVpiError = g.fatalOnVpiError) ∧
  (f ≠ .args → g1.args = g.args) ∧
  (f ≠ .flushCbs → g1.flushCbs = g.flushCbs) ∧
  (f ≠ .exitCbs → g1.exitCbs = g.exitCbs)

/-- The step from `w` to `w1` changed at most the global field `f`: every other global
field and every dump handle are as before. -/
def changesOnlyField (f : GField) (w w1 : World) : Prop :=
  agreeOff f w.global w1.global ∧ w1.handles = w.handles ∧ w1.brk = w.brk

/-- The step from `w` to `w1` changed at most the handle `vcd`: the global
configuration and every other handle are as before. -/
def changesOnlyHandle (vcd : Nat) (w w1 : World) : Prop :=
  w1.global = w.global ∧ (∀ p, p ≠ vcd → w1.handles p = w.handles p) ∧ w1.brk = w.brk

/-! ## A concrete state -/

/-- A configuration used to evaluate the functions on a concrete state. -/
def sampleConfig : GlobalConfig :=
  { randReset := 0, debug := 0, calcUnusedSigs := false, gotFinish := false,
    traceEverOn := false, assertOn := true, fatalOnVpiError := true,
    args := [], flushCbs := [], exitCbs := [] }

/-- A state with no live dump handle. -/
def emptyWorld : World :=
  { global := sampleConfig, handles := fun _ => none, brk := 0 }

/-- The state after one `verilatedvcdc_new()`: one fresh handle, at address 0. -/
def oneHandleWorld : World := (verilatedvcdc_new emptyWorld).2

/-! ## Helper lemmas -/

theorem store_same (w : World) (p : Nat) (o : Option VerilatedVcdC) :
    (w.store p o).handles p = o := by
  simp [World.store]

theorem store_other (w : World) (p q : Nat) (o : Option VerilatedVcdC) (h : q ≠ p) :
    (w.store p o).handles q = w.handles q := by
  simp [World.store, h]

theorem call_live (w : World) (vcd : Nat) (m : VerilatedVcdC → VerilatedVcdC)
    (o : VerilatedVcdC) (h : w.handles vcd = some o) :
    w.call vcd m = some (w.store vcd (some (m o))) := by
  simp [World.call, h]

theorem call_frame (w w1 : World) (vcd : Nat) (m : VerilatedVcdC → VerilatedVcdC)
    (h : w.call vcd m = some w1) : changesOnlyHandle vcd w w1 := by
  unfold World.call at h
  cases hv : w.handles vcd with
  | none => simp [hv] at h
  | some o =>
    simp [hv] at h
    subst h
    exact ⟨rfl, fun p hp => store_other w vcd p _ hp, rfl⟩

theorem callbackGate_iff (major minor : Nat) :
    callbackGate major minor = true ↔ (major ≥ 5 ∨ (major = 4 ∧ minor ≥ 38)) := by
  simp [callbackGate]

/-! ## Claims -/

/-- C1: for each of the four boolean setter/getter pairs (calcUnusedSigs, gotFinish,
assertOn, fatalOnVpiError), in every state and for every integer flag, negative ones
included, the getter called after the setter returns 1 when the flag is nonzero and 0
when it is zero. -/
theorem C1_bool_set_then_get (flag : Int) (w : World) :
    (verilated_calc_unused_sigs (verilated_set_calc_unused_sigs flag w)).1
        = (if flag ≠ 0 then 1 else 0) ∧
    (verilated_got_finish (verilated_set_got_finish flag w)).1
        = (if flag ≠ 0 then 1 else 0) ∧
    (verilated_assert_on (verilated_set_assert_on flag w)).1
        = (if flag ≠ 0 then 1 else 0) ∧
    (verilated_fatal_on_vpi_error (verilated_set_fatal_on_vpi_error flag w)).1
        = (if flag ≠ 0 then 1 else 0) := by
  by_cases h : flag = 0 <;>
    simp [verilated_calc_unused_sigs, verilated_set_calc_unused_sigs, verilated_got_finish,
      verilated_set_got_finish, verilated_assert_on, verilated_set_assert_on,
      verilated_fatal_on_vpi_error, verilated_set_fatal_on_vpi_error,
      Verilated.setCalcUnusedSigs, Verilated.setGotFinish, Verilated.setAssertOn,
      Verilated.setFatalOnVpiError, h]

/-- C2: in every state, with or without live dump handles, each boolean-valued getter
of the global surface returns exactly 1 or exactly 0: 1 when the engine's boolean is
true and 0 when it is false; and on every live handle, in every handle state,
`verilatedvcdc_is_open` returns a result, which is 1 when the engine's flag is true
and 0 when it is false, never another integer. -/
theorem C2_bool_getters_return_one_or_zero (w : World) (vcd : Nat) :
    (((verilated_calc_unused_sigs w).1 = 1 ∨ (verilated_calc_unused_sigs w).1 = 0) ∧
      ((verilated_calc_unused_sigs w).1 = 1 ↔ w.global.calcUnusedSigs = true) ∧
      ((verilated_calc_unused_sigs w).1 = 0 ↔ w.global.calcUnusedSigs = false)) ∧
    (((verilated_got_finish w).1 = 1 ∨ (verilated_got_finish w).1 = 0) ∧
      ((verilated_got_finish w).1 = 1 ↔ w.global.gotFinish = true) ∧
      ((verilated_got_finish w).1 = 0 ↔ w.global.gotFinish = false)) ∧
    (((verilated_assert_on w).1 = 1 ∨ (verilated_assert_on w).1 = 0) ∧
      ((verilated_assert_on w).1 = 1 ↔ w.global.assertOn = true) ∧
      ((verilated_assert_on w).1 = 0 ↔ w.global.assertOn = false)) ∧
    (((verilated_fatal_on_vpi_error w).1 = 1 ∨ (verilated_fatal_on_vpi_error w).1 = 0) ∧
      ((verilated_fatal_on_vpi_error w).1 = 1 ↔ w.global.fatalOnVpiError = true) ∧
      ((verilated_fatal_on_vpi_error w).1 = 0 ↔ w.global.fatalOnVpiError = false)) ∧
    (∀ o : VerilatedVcdC, w.handles vcd = some o →
      ∃ r : Int, verilatedvcdc_is_open vcd w = some (r, w) ∧ (r = 1 ∨ r = 0) ∧
        (r = 1 ↔ o.isOpen = true) ∧ (r = 0 ↔ o.isOpen = false)) := by
  refine ⟨?_, ?_, ?_, ?_, ?_⟩
  · cases h : w.global.calcUnusedSigs <;> simp [verilated_calc_unused_sigs, h]
  · cases h : w.global.gotFinish <;> simp [verilated_got_finish, h]
  · cases h : w.global.assertOn <;> simp [verilated_assert_on, h]
  · cases h : w.global.fatalOnVpiError <;> simp [verilated_fatal_on_vpi_error, h]
  · intro o hlive
    cases h : o.isOpen <;> simp [verilatedvcdc_is_open, hlive, h]

/-- C2 at a concrete state: `verilatedvcdc_is_open` on the fresh handle at address 0
returns a result that is 1 or 0. -/
theorem C2_bool_getters_return_one_or_zero_witness :
    ∃ r : Int, verilatedvcdc_is_open 0 oneHandleWorld = some (r, oneHandleWorld) ∧
      (r = 1 ∨ r = 0) ∧ (r = 1 ↔ VerilatedVcdC.fresh.isOpen = true) ∧
      (r = 0 ↔ VerilatedVcdC.fresh.isOpen = false) :=
  (C2_bool_getters_return_one_or_zero oneHandleWorld 0).2.2.2.2 VerilatedVcdC.fresh
    (by simp [oneHandleWorld, verilatedvcdc_new, World.store, emptyWorld])

/-- C3: for every engine version the build exposes exactly one of the two callback
shapes, never both and never neither: the list-based shape exactly when
(major, minor) is at least (4, 38) in lexicographic order, that is major >= 5 or
major = 4 and minor >= 38, and the single-slot shape in every other case; no function
of the other shape is compiled in. -/
theorem C3_exactly_one_callback_shape (major minor : Nat) :
    (exposes major minor listShape ↔ (major ≥ 5 ∨ (major = 4 ∧ minor ≥ 38))) ∧
    (exposes major minor singleSlotShape ↔ ¬ (major ≥ 5 ∨ (major = 4 ∧ minor ≥ 38))) ∧
    ((major ≥ 5 ∨ (major = 4 ∧ minor ≥ 38)) ↔ toLex ((4 : Nat), (38 : Nat)) ≤ toLex (major, minor)) ∧
    ((exposes major minor listShape ∧ ¬ exposes major minor singleSlotShape) ∨
      (¬ exposes major minor listShape ∧ exposes major minor singleSlotShape)) ∧
    ((compiledCallbacks major minor = listShape ∧
        ∀ f ∈ singleSlotShape, f ∉ compiledCallbacks major minor) ∨
      (compiledCallbacks major minor = singleSlotShape ∧
        ∀ f ∈ listShape, f ∉ compiledCallbacks major minor)) := by
  have hlex : (major ≥ 5 ∨ (major = 4 ∧ minor ≥ 38)) ↔
      toLex ((4 : Nat), (38 : Nat)) ≤ toLex (major, minor) := by
    rw [Prod.Lex.le_iff]
    simp only [ge_iff_le]
    omega
  by_cases hg : callbackGate major minor = true
  · have hv := (callbackGate_iff major minor).mp hg
    have hl : exposes major minor listShape := by
      intro f hf; simpa [compiledCallbacks, hg] using hf
    have hs : ¬ exposes major minor singleSlotShape := by
      intro h
      have := h .verilated_flush_cb (by simp [singleSlotShape])
      simp [compiledCallbacks, hg, listShape] at this
    refine ⟨⟨fun _ => hv, fun _ => hl⟩, ⟨fun h => absurd h hs, fun h => absurd hv h⟩, hlex,
      Or.inl ⟨hl, hs⟩, Or.inl ⟨by simp [compiledCallbacks, hg], ?_⟩⟩
    intro f hf
    simp [singleSlotShape] at hf
    rcases hf with rfl | rfl <;> simp [compiledCallbacks, hg, listShape]
  · have hv : ¬ (major ≥ 5 ∨ (major = 4 ∧ minor ≥ 38)) :=
      fun h => hg ((callbackGate_iff major minor).mpr h)
    have hg2 : callbackGate major minor = false := by simpa using hg
    have hs : exposes major minor singleSlotShape := by
      intro f hf; simpa [compiledCallbacks, hg2] using hf
    have hl : ¬ exposes major minor listShape := by
      intro h
      have := h .verilated_add_flush_cb (by simp [listShape])
      simp [compiledCallbacks, hg2, singleSlotShape] at this
    refine ⟨⟨fun h => absurd h hl, fun h => absurd h hv⟩, ⟨fun _ => hv, fun _ => hs⟩, hlex,
      Or.inr ⟨hl, hs⟩, Or.inr ⟨by simp [compiledCallbacks, hg2], ?_⟩⟩
    intro f hf
    simp [listShape] at hf
    rcases hf with rfl | rfl | rfl | rfl | rfl | rfl <;>
      simp [compiledCallbacks, hg2, singleSlotShape]

/-- C7: for every integer val, values outside 0..2 and negative values included,
`verilated_set_rand_reset` hands val to the engine unchanged, so that
`verilated_rand_reset` called next returns val; likewise `verilated_debug` after
`verilated_set_debug` returns the level, for every integer level. -/
theorem C7_int_setters_forward_unchanged (val level : Int) (w : World) :
    verilated_set_rand_reset val w = { w with global := Verilated.setRandReset val w.global } ∧
    (verilated_rand_reset (verilated_set_rand_reset val w)).1 = val ∧
    verilated_set_debug level w = { w with global := Verilated.setDebug level w.global } ∧
    (verilated_debug (verilated_set_debug level w)).1 = level := by
  simp [verilated_set_rand_reset, verilated_rand_reset, verilated_set_debug, verilated_debug,
    Verilated.setRandReset, Verilated.setDebug]

theorem is_open_live (w : World) (vcd : Nat) (o : VerilatedVcdC)
    (h : w.handles vcd = some o) :
    verilatedvcdc_is_open vcd w = some (boolInt o.isOpen, w) := by
  simp [verilatedvcdc_is_open, h, boolInt]

/-- One call other than open, open_next and close keeps a live handle live and its
open/closed flag as it was. -/
theorem dumpCall_keeps_flag (major minor vcd : Nat) (c : DumpCall) (w : World)
    (o : VerilatedVcdC) (h : w.handles vcd = some o) :
    ∃ w1 o1, c.run major minor vcd w = some w1 ∧ w1.handles vcd = some o1 ∧
      o1.isOpen = o.isOpen := by
  cases c with
  | dump t =>
    exact ⟨_, _, call_live w vcd _ o h, store_same _ _ _, rfl⟩
  | flush =>
    exact ⟨_, _, call_live w vcd _ o h, store_same _ _ _, rfl⟩
  | rollover_mb n =>
    by_cases hg : rolloverGate major minor = true
    · refine ⟨w.store vcd (some (VerilatedVcdC.rolloverSize n o)), _, ?_, store_same w vcd _, rfl⟩
      simp only [DumpCall.run, verilatedvcdc_rollover_mb, hg, if_true]
      exact call_live w vcd _ o h
    · refine ⟨w.store vcd (some (VerilatedVcdC.rolloverMB n o)), _, ?_, store_same w vcd _, rfl⟩
      simp only [DumpCall.run, verilatedvcdc_rollover_mb, hg]
      exact call_live w vcd _ o h
  | set_time_unit u =>
    exact ⟨_, _, call_live w vcd _ o h, store_same _ _ _, rfl⟩
  | set_time_resolution u =>
    exact ⟨_, _, call_live w vcd _ o h, store_same _ _ _, rfl⟩

/-- A sequence of such calls runs to the end on a live handle and keeps the flag. -/
theorem runCalls_keeps_flag (major minor vcd : Nat) (cs : List DumpCall) :
    ∀ (w : World) (o : VerilatedVcdC), w.handles vcd = some o →
      ∃ w1 o1, runCalls major minor vcd cs w = some w1 ∧ w1.handles vcd = some o1 ∧
        o1.isOpen = o.isOpen := by
  induction cs with
  | nil => intro w o h; exact ⟨w, o, rfl, h, rfl⟩
  | cons c cs ih =>
    intro w o h
    obtain ⟨w1, o1, hrun, hl1, hf1⟩ := dumpCall_keeps_flag major minor vcd c w o h
    obtain ⟨w2, o2, hrun2, hl2, hf2⟩ := ih w1 o1 hl1
    exact ⟨w2, o2, by simp [runCalls, hrun, hrun2], hl2, hf2.trans hf1⟩

/-- C4: `verilatedvcdc_is_open` returns 0 on the handle `verilatedvcdc_new` returns;
on every live handle it returns 1 after an open that succeeded, keeps its value (so
keeps returning 1 once open, and 0 before any open) across every sequence of dump,
flush, rollover_mb, set_time_unit and set_time_resolution calls, which all run to the
end, and returns 0 after close. -/
theorem C4_is_open_lifecycle (major minor : Nat) (w0 w : World) (vcd : Nat)
    (o : VerilatedVcdC) (filename : CString) (cs : List DumpCall)
    (hlive : w.handles vcd = some o) :
    verilatedvcdc_is_open (verilatedvcdc_new w0).1 (verilatedvcdc_new w0).2
        = some (0, (verilatedvcdc_new w0).2) ∧
    (∃ w1, verilatedvcdc_open true vcd filename w = some w1 ∧
        verilatedvcdc_is_open vcd w1 = some (1, w1)) ∧
    (∀ r : Int, verilatedvcdc_is_open vcd w = some (r, w) →
        ∃ w2, runCalls major minor vcd cs w = some w2 ∧
          verilatedvcdc_is_open vcd w2 = some (r, w2)) ∧
    (∃ w3, verilatedvcdc_close vcd w = some w3 ∧
        verilatedvcdc_is_open vcd w3 = some (0, w3)) := by
  refine ⟨?_, ?_, ?_, ?_⟩
  · rw [is_open_live _ _ VerilatedVcdC.fresh]
    · rfl
    · simp [verilatedvcdc_new, World.store]
  · refine ⟨_, call_live w vcd _ o hlive, ?_⟩
    rw [is_open_live _ _ _ (store_same w vcd _)]
    rfl
  · intro r hr
    obtain ⟨w2, o2, hrun, hl2, hf2⟩ := runCalls_keeps_flag major minor vcd cs w o hlive
    refine ⟨w2, hrun, ?_⟩
    rw [is_open_live w vcd o hlive] at hr
    simp only [Option.some.injEq, Prod.mk.injEq, and_true] at hr
    rw [is_open_live w2 vcd o2 hl2, hf2, hr]
  · refine ⟨_, call_live w vcd _ o hlive, ?_⟩
    rw [is_open_live _ _ _ (store_same w vcd _)]
    rfl

/-- C4 on a concrete run: the fresh handle at address 0 is opened on `a.vcd`. -/
theorem C4_is_open_lifecycle_witness :
    ∃ w1, verilatedvcdc_open true 0 "a.vcd".toList oneHandleWorld = some w1 ∧
      verilatedvcdc_is_open 0 w1 = some (1, w1) :=
  (C4_is_open_lifecycle 4 38 emptyWorld oneHandleWorld 0 VerilatedVcdC.fresh "a.vcd".toList
    [DumpCall.dump 0, DumpCall.flush] (by simp [oneHandleWorld, verilatedvcdc_new, World.store,
      emptyWorld])).2.1

/-- What `verilatedvcdc_rollover_mb` does on a live handle: it runs, and hands the
number it is given, unscaled, to `rolloverSize` in a build against an engine from 4.226
on and to `rolloverMB` in a build against an earlier one. -/
theorem rollover_mb_forwards (major minor vcd n : Nat) (w : World) (o : VerilatedVcdC)
    (h : w.handles vcd = some o) :
    verilatedvcdc_rollover_mb major minor vcd n w
      = some (w.store vcd (some
          { o with rollover := if major ≥ 5 ∨ (major = 4 ∧ minor ≥ 226)
                                then .viaRolloverSize n else .viaRolloverMB n })) := by
  by_cases hg : rolloverGate major minor = true
  · have hv : major ≥ 5 ∨ (major = 4 ∧ minor ≥ 226) := by simpa [rolloverGate] using hg
    simp [verilatedvcdc_rollover_mb, hg, call_live w vcd _ o h, VerilatedVcdC.rolloverSize, hv]
  · have hv : ¬ (major ≥ 5 ∨ (major = 4 ∧ minor ≥ 226)) := by simpa [rolloverGate] using hg
    simp [verilatedvcdc_rollover_mb, hg, call_live w vcd _ o h, VerilatedVcdC.rolloverMB, hv]

/-- No `int`-returning function of the surface reports the flag last given to
`verilated_trace_ever_on`. -/
theorem no_getter_follows_trace_ever_on :
    ¬ ∃ get ∈ intGetters, ∀ (flag : Int) (w : World),
        (get (verilated_trace_ever_on flag w)).1 = if flag ≠ 0 then 1 else 0 := by
  rintro ⟨get, hmem, h⟩
  simp only [intGetters, List.mem_cons, List.mem_singleton, List.not_mem_nil, or_false] at hmem
  have h1 := h 1 emptyWorld
  have h0 := h 0 emptyWorld
  rcases hmem with rfl | rfl | rfl | rfl | rfl | rfl
  · simp [verilated_rand_reset, verilated_trace_ever_on, Verilated.setTraceEverOn, emptyWorld,
      sampleConfig] at h1
  · simp [verilated_debug, verilated_trace_ever_on, Verilated.setTraceEverOn, emptyWorld,
      sampleConfig] at h1
  · simp [verilated_calc_unused_sigs, verilated_trace_ever_on, Verilated.setTraceEverOn,
      emptyWorld, sampleConfig] at h1
  · simp [verilated_got_finish, verilated_trace_ever_on, Verilated.setTraceEverOn, emptyWorld,
      sampleConfig] at h1
  · simp [verilated_assert_on, verilated_trace_ever_on, Verilated.setTraceEverOn, emptyWorld,
      sampleConfig] at h0
  · simp [verilated_fatal_on_vpi_error, verilated_trace_ever_on, Verilated.setTraceEverOn,
      emptyWorld, sampleConfig] at h0

theorem trace_ever_on_read (flag : Int) (w : World) :
    Field.traceEverOn.read (verilated_trace_ever_on flag w).global
      = if flag ≠ 0 then 1 else 0 := by
  by_cases h : flag = 0 <;>
    simp [Field.read, verilated_trace_ever_on, Verilated.setTraceEverOn, boolInt, h]

theorem no_trace_ever_on_getter : ¬ hasGetter Field.traceEverOn := by
  rintro ⟨get, hmem, h⟩
  exact no_getter_follows_trace_ever_on
    ⟨get, hmem, fun flag w => (h _).trans (trace_ever_on_read flag w)⟩

/-- C6 fails at the field traceEverOn: the surface has no get function for it, no
`int`-returning function returns 1/0 according to the flag last given to
`verilated_trace_ever_on`, and so not every scalar field has both a get and a set
function. -/
theorem C6_trace_ever_on_has_no_getter :
    ¬ hasGetter Field.traceEverOn ∧
    (¬ ∃ get ∈ intGetters, ∀ (flag : Int) (w : World),
        (get (verilated_trace_ever_on flag w)).1 = if flag ≠ 0 then 1 else 0) ∧
    ¬ (∀ f : Field, hasSetter f ∧ hasGetter f) :=
  ⟨no_trace_ever_on_getter, no_getter_follows_trace_ever_on,
    fun h => no_trace_ever_on_getter (h Field.traceEverOn).2⟩

/-- C6 as amended: the surface has both a get and a set function for each of
randReset, debug, calcUnusedSigs, gotFinish, assertOn and fatalOnVpiError; for
traceEverOn it has a set function, `verilated_trace_ever_on`, and no get function. -/
theorem C6_get_set_surface :
    (∀ f : Field, f ≠ Field.traceEverOn → hasSetter f ∧ hasGetter f) ∧
    hasSetter Field.traceEverOn ∧ ¬ hasGetter Field.traceEverOn := by
  refine ⟨?_, ⟨verilated_trace_ever_on, by simp [intSetters], trace_ever_on_read⟩,
    no_trace_ever_on_getter⟩
  intro f hf
  cases f with
  | randReset =>
    exact ⟨⟨verilated_set_rand_reset, by simp [intSetters], fun v w => rfl⟩,
      ⟨verilated_rand_reset, by simp [intGetters], fun w => rfl⟩⟩
  | debug =>
    exact ⟨⟨verilated_set_debug, by simp [intSetters], fun v w => rfl⟩,
      ⟨verilated_debug, by simp [intGetters], fun w => rfl⟩⟩
  | calcUnusedSigs =>
    refine ⟨⟨verilated_set_calc_unused_sigs, by simp [intSetters], fun v w => ?_⟩,
      ⟨verilated_calc_unused_sigs, by simp [intGetters], fun w => rfl⟩⟩
    by_cases h : v = 0 <;>
      simp [Field.read, Field.norm, verilated_set_calc_unused_sigs,
        Verilated.setCalcUnusedSigs, boolInt, h]
  | gotFinish =>
    refine ⟨⟨verilated_set_got_finish, by simp [intSetters], fun v w => ?_⟩,
      ⟨verilated_got_finish, by simp [intGetters], fun w => rfl⟩⟩
    by_cases h : v = 0 <;>
      simp [Field.read, Field.norm, verilated_set_got_finish, Verilated.setGotFinish, boolInt, h]
  | assertOn =>
    refine ⟨⟨verilated_set_assert_on, by simp [intSetters], fun v w => ?_⟩,
      ⟨verilated_assert_on, by simp [intGetters], fun w => rfl⟩⟩
    by_cases h : v = 0 <;>
      simp [Field.read, Field.norm, verilated_set_assert_on, Verilated.setAssertOn, boolInt, h]
  | fatalOnVpiError =>
    refine ⟨⟨verilated_set_fatal_on_vpi_error, by simp [intSetters], fun v w => ?_⟩,
      ⟨verilated_fatal_on_vpi_error, by simp [intGetters], fun w => rfl⟩⟩
    by_cases h : v = 0 <;>
      simp [Field.read, Field.norm, verilated_set_fatal_on_vpi_error,
        Verilated.setFatalOnVpiError, boolInt, h]
  | traceEverOn => exact absurd rfl hf

/-- C6 as amended, at the field debug. -/
theorem C6_get_set_surface_witness : hasSetter Field.debug ∧ hasGetter Field.debug :=
  C6_get_set_surface.1 Field.debug (by decide)

/-- C8: after `verilated_command_args(argc, argv)` with `argv` of length `argc`, for
every string p, `verilated_command_args_plus_match(p)` returns a recorded argument that
starts with p when some recorded argument starts with p, and no argument when none
does. -/
theorem C8_plus_match_finds_recorded (argc : Int) (argv : List CString) (pfx : CString)
    (w : World) (hargc : argc = argv.length) :
    ((∃ a ∈ argv, pfx <+: a) →
      ∃ a, (verilated_command_args_plus_match pfx (verilated_command_args argc argv w)).1
          = some a ∧ a ∈ argv ∧ pfx <+: a) ∧
    ((¬ ∃ a ∈ argv, pfx <+: a) →
      (verilated_command_args_plus_match pfx (verilated_command_args argc argv w)).1 = none) := by
  subst hargc
  have hrec : (verilated_command_args (↑argv.length) argv w).global.args = argv := by
    simp [verilated_command_args, Verilated.commandArgs]
  constructor
  · rintro ⟨a, ha, hp⟩
    cases hf : argv.find? (fun a => decide (pfx <+: a)) with
    | none =>
      rw [List.find?_eq_none] at hf
      exact absurd hp (by simpa using hf a ha)
    | some b =>
      refine ⟨b, ?_, List.mem_of_find?_eq_some hf, ?_⟩
      · simp [verilated_command_args_plus_match, Verilated.commandArgsPlusMatch, hrec, hf]
      · simpa using List.find?_some hf
  · intro hno
    simp only [verilated_command_args_plus_match, Verilated.commandArgsPlusMatch, hrec]
    rw [List.find?_eq_none]
    intro a ha
    simpa using fun hp => hno ⟨a, ha, hp⟩

/-- C8 on a concrete run: of the recorded `sim`, `+trace`, `+seed=7`, the query `+se`
finds `+seed=7`. -/
theorem C8_plus_match_finds_recorded_witness :
    ∃ a, (verilated_command_args_plus_match "+se".toList
        (verilated_command_args 3 ["sim".toList, "+trace".toList, "+seed=7".toList]
          emptyWorld)).1 = some a ∧
      a ∈ ["sim".toList, "+trace".toList, "+seed=7".toList] ∧ "+se".toList <+: a :=
  (C8_plus_match_finds_recorded 3 ["sim".toList, "+trace".toList, "+seed=7".toList]
    "+se".toList emptyWorld (by decide)).1
    ⟨"+seed=7".toList, by decide, by decide⟩

/-- Removing the pair `q` from a list keeps exactly the entries other than `q`. -/
theorem mem_filter_ne (l : List (Nat × Nat)) (q p : Nat × Nat) :
    p ∈ l.filter (fun x => decide (x ≠ q)) ↔ p ∈ l ∧ p ≠ q := by
  simp [List.mem_filter]

/-- Removing a pair that is not in the list leaves the list as it is. -/
theorem filter_ne_of_not_mem (l : List (Nat × Nat)) (q : Nat × Nat) (h : q ∉ l) :
    l.filter (fun x => decide (x ≠ q)) = l := by
  rw [List.filter_eq_self]
  intro a ha
  have : a ≠ q := fun e => h (e ▸ ha)
  simpa using this

/-- Adding a pair that is not in the list and removing it again gives the list back. -/
theorem filter_ne_append (l : List (Nat × Nat)) (q : Nat × Nat) (h : q ∉ l) :
    (l ++ [q]).filter (fun x => decide (x ≠ q)) = l := by
  rw [List.filter_append, filter_ne_of_not_mem l q h]
  simp

/-- C9: `verilated_add_flush_cb(cb, datap)` registers exactly the pair it is given;
`verilated_remove_flush_cb(cb1, datap1)` removes a registration only when it equals
(cb1, datap1) in both components, keeping every other one; adding a pair that is not
registered and removing the same pair leaves the state as it was; removing a pair that
differs from every registered pair in either component leaves the state unchanged. The
same holds for `verilated_add_exit_cb` / `verilated_remove_exit_cb` on the exit list. -/
theorem C9_callback_add_remove (cb datap cb1 datap1 : Nat) (w : World) :
    ((verilated_add_flush_cb cb datap w).global.flushCbs = w.global.flushCbs ++ [(cb, datap)] ∧
      (∀ p, p ∈ (verilated_remove_flush_cb cb1 datap1 w).global.flushCbs ↔
        p ∈ w.global.flushCbs ∧ (p.1 ≠ cb1 ∨ p.2 ≠ datap1)) ∧
      ((cb, datap) ∉ w.global.flushCbs →
        verilated_remove_flush_cb cb datap (verilated_add_flush_cb cb datap w) = w) ∧
      ((∀ p ∈ w.global.flushCbs, p.1 ≠ cb1 ∨ p.2 ≠ datap1) →
        verilated_remove_flush_cb cb1 datap1 w = w)) ∧
    ((verilated_add_exit_cb cb datap w).global.exitCbs = w.global.exitCbs ++ [(cb, datap)] ∧
      (∀ p, p ∈ (verilated_remove_exit_cb cb1 datap1 w).global.exitCbs ↔
        p ∈ w.global.exitCbs ∧ (p.1 ≠ cb1 ∨ p.2 ≠ datap1)) ∧
      ((cb, datap) ∉ w.global.exitCbs →
        verilated_remove_exit_cb cb datap (verilated_add_exit_cb cb datap w) = w) ∧
      ((∀ p ∈ w.global.exitCbs, p.1 ≠ cb1 ∨ p.2 ≠ datap1) →
        verilated_remove_exit_cb cb1 datap1 w = w)) := by
  have hne : ∀ p : Nat × Nat, p ≠ (cb1, datap1) ↔ (p.1 ≠ cb1 ∨ p.2 ≠ datap1) := by
    intro p
    rw [Ne, Prod.ext_iff]
    simp only [not_and_or, Ne]
  refine ⟨⟨rfl, ?_, ?_, ?_⟩, ⟨rfl, ?_, ?_, ?_⟩⟩
  · intro p
    rw [← hne]
    exact mem_filter_ne _ _ _
  · intro h
    simp only [verilated_remove_flush_cb, verilated_add_flush_cb, Verilated.removeFlushCb,
      Verilated.addFlushCb]
    rw [filter_ne_append _ _ h]
  · intro h
    have hq : (cb1, datap1) ∉ w.global.flushCbs := fun hm => (hne _).mpr (h _ hm) rfl
    simp only [verilated_remove_flush_cb, Verilated.removeFlushCb]
    rw [filter_ne_of_not_mem _ _ hq]
  · intro p
    rw [← hne]
    exact mem_filter_ne _ _ _
  · intro h
    simp only [verilated_remove_exit_cb, verilated_add_exit_cb, Verilated.removeExitCb,
      Verilated.addExitCb]
    rw [filter_ne_append _ _ h]
  · intro h
    have hq : (cb1, datap1) ∉ w.global.exitCbs := fun hm => (hne _).mpr (h _ hm) rfl
    simp only [verilated_remove_exit_cb, Verilated.removeExitCb]
    rw [filter_ne_of_not_mem _ _ hq]

/-- C9 on a concrete run: registering the pair (16, 32) in a state with no flush
callback and removing the same pair gives the state back. -/
theorem C9_callback_add_remove_witness :
    verilated_remove_flush_cb 16 32 (verilated_add_flush_cb 16 32 emptyWorld) = emptyWorld :=
  (C9_callback_add_remove 16 32 16 33 emptyWorld).1.2.2.1 (by simp [emptyWorld, sampleConfig])

/-- C10: in every state, with or without live dump handles, each of the seven global
setters changes only its own field, leaving every other global field and every dump
handle as they were, and every getter of the global surface leaves the whole state as
it was; on every live handle `verilatedvcdc_is_open` leaves the whole state as it was
and every dump-handle operation runs and changes only the handle it is given, leaving
the global configuration and every other handle as they were. -/
theorem C10_frame (major minor : Nat) (ok : Bool) (v inc : Int) (n t vcd : Nat)
    (s pfx : CString) (w : World) :
    (changesOnlyField .randReset w (verilated_set_rand_reset v w) ∧
      changesOnlyField .debug w (verilated_set_debug v w) ∧
      changesOnlyField .calcUnusedSigs w (verilated_set_calc_unused_sigs v w) ∧
      changesOnlyField .gotFinish w (verilated_set_got_finish v w) ∧
      changesOnlyField .traceEverOn w (verilated_trace_ever_on v w) ∧
      changesOnlyField .assertOn w (verilated_set_assert_on v w) ∧
      changesOnlyField .fatalOnVpiError w (verilated_set_fatal_on_vpi_error v w)) ∧
    ((verilated_rand_reset w).2 = w ∧ (verilated_debug w).2 = w ∧
      (verilated_calc_unused_sigs w).2 = w ∧ (verilated_got_finish w).2 = w ∧
      (verilated_assert_on w).2 = w ∧ (verilated_fatal_on_vpi_error w).2 = w ∧
      (verilated_command_args_plus_match pfx w).2 = w) ∧
    (∀ o : VerilatedVcdC, w.handles vcd = some o →
      (∃ r, verilatedvcdc_is_open vcd w = some (r, w)) ∧
      (∃ w1, verilatedvcdc_open ok vcd s w = some w1 ∧ changesOnlyHandle vcd w w1) ∧
      (∃ w1, verilatedvcdc_open_next ok vcd inc w = some w1 ∧ changesOnlyHandle vcd w w1) ∧
      (∃ w1, verilatedvcdc_rollover_mb major minor vcd n w = some w1 ∧
        changesOnlyHandle vcd w w1) ∧
      (∃ w1, verilatedvcdc_close vcd w = some w1 ∧ changesOnlyHandle vcd w w1) ∧
      (∃ w1, verilatedvcdc_flush vcd w = some w1 ∧ changesOnlyHandle vcd w w1) ∧
      (∃ w1, verilatedvcdc_dump vcd t w = some w1 ∧ changesOnlyHandle vcd w w1) ∧
      (∃ w1, verilatedvcdc_set_time_unit vcd s w = some w1 ∧ changesOnlyHandle vcd w w1) ∧
      (∃ w1, verilatedvcdc_set_time_resolution vcd s w = some w1 ∧
        changesOnlyHandle vcd w w1)) := by
  refine ⟨⟨?_, ?_, ?_, ?_, ?_, ?_, ?_⟩, ⟨rfl, rfl, rfl, rfl, rfl, rfl, rfl⟩, ?_⟩
  · simp [changesOnlyField, agreeOff, verilated_set_rand_reset, Verilated.setRandReset]
  · simp [changesOnlyField, agreeOff, verilated_set_debug, Verilated.setDebug]
  · simp [changesOnlyField, agreeOff, verilated_set_calc_unused_sigs,
      Verilated.setCalcUnusedSigs]
  · simp [changesOnlyField, agreeOff, verilated_set_got_finish, Verilated.setGotFinish]
  · simp [changesOnlyField, agreeOff, verilated_trace_ever_on, Verilated.setTraceEverOn]
  · simp [changesOnlyField, agreeOff, verilated_set_assert_on, Verilated.setAssertOn]
  · simp [changesOnlyField, agreeOff, verilated_set_fatal_on_vpi_error,
      Verilated.setFatalOnVpiError]
  · intro o hlive
    have hcall : ∀ m : VerilatedVcdC → VerilatedVcdC,
        ∃ w1, w.call vcd m = some w1 ∧ changesOnlyHandle vcd w w1 := fun m =>
      ⟨_, call_live w vcd m o hlive, call_frame w _ vcd m (call_live w vcd m o hlive)⟩
    refine ⟨⟨_, is_open_live w vcd o hlive⟩, hcall _, hcall _, ?_, hcall _, hcall _, hcall _,
      hcall _, hcall _⟩
    unfold verilatedvcdc_rollover_mb
    split
    · exact hcall _
    · exact hcall _

/-- C10 on a concrete run: closing the handle at address 0 runs and leaves the global
configuration and every other address as they were. -/
theorem C10_frame_witness :
    ∃ w1, verilatedvcdc_close 0 oneHandleWorld = some w1 ∧
      changesOnlyHandle 0 oneHandleWorld w1 :=
  ((C10_frame 4 38 true 1 1 1 1 0 "a.vcd".toList "+x".toList oneHandleWorld).2.2
    VerilatedVcdC.fresh
    (by simp [oneHandleWorld, verilatedvcdc_new, World.store, emptyWorld])).2.2.2.2.1

end VerilatedShim
